import Mathlib

/-!
Shallow embedding of the selection → generation → result-history lifecycle of
the VisualiEducate single-page app (src/types.ts and the main App component).

The React component state (file, pdfUrl, selectedText, selectionPosition,
results, status, error, showHistory) is modelled as an explicit `State`
record; each event handler becomes a pure transition function on `State`.
The nondeterministic inputs of the code — `Math.random()`-derived ids,
`Date.now()` timestamps, the browser selection object and the external
generation service response — are passed as explicit parameters.
-/

namespace VisualiEducate

/-- GenerationStatus enum from src/types.ts. -/
inductive GenerationStatus where
  | IDLE
  | LOADING
  | SUCCESS
  | ERROR
deriving DecidableEq

/-- VisualResult record from src/types.ts: id, text, imageUrl, timestamp and
an optional explanation.  The JS number timestamp is modelled as a Nat
(Date.now() returns a non-negative integer count of milliseconds). -/
structure VisualResult where
  id : String
  text : String
  imageUrl : String
  timestamp : Nat
  explanation : Option String
deriving DecidableEq

/-- Screen-space anchor point, the value stored in selectionPosition.
JS numbers on this code path only undergo +, -, /2, modelled over Rat. -/
structure Pos where
  x : Rat
  y : Rat
deriving DecidableEq

/-- Bounding rectangle of the selection range, as consumed by handleMouseUp
(rect.left, rect.width, rect.top are the only fields read). -/
structure Rect where
  left : Rat
  width : Rat
  top : Rat
deriving DecidableEq

/-- The browser selection as observed in handleMouseUp: its raw string
(selection.toString(), before trimming) and the bounding rectangle of its
first range.  A null window.getSelection() is modelled as Option.none at the
call site; when the selection text is non-empty the DOM guarantees a range,
whose getBoundingClientRect() always returns a rectangle. -/
structure SelEvent where
  raw : String
  rect : Rect
deriving DecidableEq

/-- The uploaded file as read by handleFileChange: its name and MIME type
(the only fields the code inspects). -/
structure FileInput where
  name : String
  ftype : String
deriving DecidableEq

/-- The React component state of App: one field per useState hook. -/
structure State where
  file : Option FileInput
  pdfUrl : Option String
  selectedText : String
  selectionPosition : Option Pos
  results : List VisualResult
  status : GenerationStatus
  error : Option String
  showHistory : Bool
deriving DecidableEq

/-- Initial state of App: every useState initialiser. -/
def initState : State :=
  { file := none
    pdfUrl := none
    selectedText := ""
    selectionPosition := none
    results := []
    status := GenerationStatus.IDLE
    error := none
    showHistory := false }

/-- JS String.prototype.trim as used on the selection text: strips leading
and trailing whitespace characters.  Written over the character list so
that it evaluates inside the kernel. -/
def jsTrim (s : String) : String :=
  String.mk (((s.data.dropWhile Char.isWhitespace).reverse.dropWhile
    Char.isWhitespace).reverse)

/-- handleMouseUp: trims the selection text; if its length exceeds 5 it
stores the trimmed text and the midpoint-top anchor of the bounding
rectangle, otherwise it clears both the text and the anchor.  A null
selection (ev = none) makes the trimmed text undefined, hence falsy, taking
the clearing branch. -/
def handleMouseUp (s : State) (ev : Option SelEvent) : State :=
  match ev with
  | none => { s with selectedText := "", selectionPosition := none }
  | some e =>
    if (jsTrim e.raw).length > 5 then
      { s with
          selectedText := jsTrim e.raw
          selectionPosition := some ⟨e.rect.left + e.rect.width / 2, e.rect.top - 10⟩ }
    else
      { s with selectedText := "", selectionPosition := none }

/-- Synchronous prefix of handleVisualize: if selectedText is empty (the
only falsy string) it returns without doing anything; otherwise it sets
status to LOADING, clears error, clears selectionPosition, and invokes
generateVisualFromContext with the captured text.  The second component of
the result is the invocation issued to the Generation Requester (none when
no call is issued, some t when the service is called with argument t).
Note the code does not reset selectedText here and does not test status. -/
def handleVisualize (s : State) : State × Option String :=
  if s.selectedText = "" then (s, none)
  else
    ({ s with
        status := GenerationStatus.LOADING
        error := none
        selectionPosition := none },
     some s.selectedText)

/-- Continuation of handleVisualize on a successful service response: builds
newResult from the fresh id, the captured text, the returned imageUrl and
explanation and the current time, prepends it to results, and sets status to
SUCCESS.  captured is the selectedText closed over at invocation time;
freshId and now stand for Math.random().toString(36).substr(2, 9) and
Date.now(). -/
def applySuccess (s : State) (captured imageUrl : String)
    (explanation : Option String) (freshId : String) (now : Nat) : State :=
  { s with
      results := ⟨freshId, captured, imageUrl, now, explanation⟩ :: s.results
      status := GenerationStatus.SUCCESS }

/-- Catch branch of handleVisualize: sets the user-facing error message and
status ERROR; results are not touched. -/
def applyFailure (s : State) : State :=
  { s with
      error := some "Failed to generate visualization. Please try again."
      status := GenerationStatus.ERROR }

/-- History promote operation, from the history drawer onClick:
setResults(prev => [res, ...prev.filter(p => p.id !== res.id)]) where res is
the clicked entry.  Abstracted over the id: when no entry with the id exists
nothing can be clicked, so the list is returned unchanged. -/
def promote (id : String) (hist : List VisualResult) : List VisualResult :=
  match hist.find? (fun r => r.id == id) with
  | none => hist
  | some res => res :: hist.filter (fun r => r.id != id)

/-- The full drawer onClick handler: promotes the entry and closes the
drawer (setShowHistory(false)).  When the id is absent no entry is rendered,
so no click and no state change occurs. -/
def stepPromote (s : State) (id : String) : State :=
  match s.results.find? (fun r => r.id == id) with
  | none => s
  | some _ => { s with results := promote id s.results, showHistory := false }

/-- VisualCard onClose handler (rendered only when results is non-empty):
setResults(prev => prev.filter(r => r.id !== results[0].id)). -/
def stepDismissHead (s : State) : State :=
  match s.results with
  | [] => s
  | r :: _ => { s with results := s.results.filter (fun x => x.id != r.id) }

/-- Header file dismiss onClick: setFile(null); setPdfUrl(null);
setResults([]). -/
def stepFileDismiss (s : State) : State :=
  { s with file := none, pdfUrl := none, results := [] }

/-- handleFileChange: a PDF file is stored together with an object URL for
it (URL.createObjectURL is opaque; its value is modelled from the file name)
and error is cleared; any other file only sets the error message.  No file
selected does nothing. -/
def handleFileChange (s : State) (f : Option FileInput) : State :=
  match f with
  | none => s
  | some fi =>
    if fi.ftype = "application/pdf" then
      { s with file := some fi, pdfUrl := some fi.name, error := none }
    else
      { s with error := some "Please select a valid PDF file." }

/-- Discrete external events driving the component, one per handler in App.
The success event carries the captured text, the service response fields,
and the id and timestamp oracles. -/
inductive Event where
  | mouseUp (ev : Option SelEvent)
  | submit
  | success (captured imageUrl : String) (explanation : Option String)
      (freshId : String) (now : Nat)
  | failure
  | promoteEntry (id : String)
  | dismissHead
  | fileDismiss
  | errorDismiss
  | toggleHistory
  | fileChange (f : Option FileInput)

/-- One step of the event-driven state machine. -/
def step (s : State) (e : Event) : State :=
  match e with
  | Event.mouseUp ev => handleMouseUp s ev
  | Event.submit => (handleVisualize s).1
  | Event.success c u ex fid now => applySuccess s c u ex fid now
  | Event.failure => applyFailure s
  | Event.promoteEntry id => stepPromote s id
  | Event.dismissHead => stepDismissHead s
  | Event.fileDismiss => stepFileDismiss s
  | Event.errorDismiss => { s with error := none }
  | Event.toggleHistory => { s with showHistory := !s.showHistory }
  | Event.fileChange f => handleFileChange s f

/-- Running a list of events from a state. -/
def run (s : State) (evs : List Event) : State :=
  evs.foldl step s

/-- Freshness of the id oracle at one event: a success event must carry an
id not already present in the history (Math.random ids are unique within a
session per the data model). Every other event is unconstrained. -/
def freshOk (s : State) : Event → Bool
  | Event.success _ _ _ fid _ => !(s.results.any (fun r => r.id == fid))
  | _ => true

/-- Freshness of the id oracle along a whole run. -/
def freshTrace (s : State) : List Event → Bool
  | [] => true
  | e :: rest => freshOk s e && freshTrace (step s e) rest

/-- Concrete state: a selection has been captured while idle (the Selecting
configuration), with its floating action button anchored. -/
def selectingState : State :=
  { initState with
      selectedText := "quantum"
      selectionPosition := some ⟨(3 : Rat), (4 : Rat)⟩ }

/-- Concrete state: a second Selecting configuration with a prior error
message on display. -/
def selectingState2 : State :=
  { initState with
      selectedText := "wave particle duality"
      selectionPosition := some ⟨(1 : Rat), (2 : Rat)⟩
      error := some "old"
      status := GenerationStatus.ERROR }

/-- Concrete state: a request is in flight with empty captured text. -/
def loadingEmptyState : State :=
  { initState with status := GenerationStatus.LOADING }

/-- Concrete history of two results with distinct ids. -/
def resA : VisualResult := ⟨"a", "alpha text", "http://x/a.png", 1, none⟩

/-- Second concrete result. -/
def resB : VisualResult := ⟨"b", "beta text", "http://x/b.png", 2, some "why"⟩

/-- Concrete state holding the two-result history, newest first. -/
def twoResultState : State :=
  { initState with
      results := [resA, resB]
      status := GenerationStatus.SUCCESS }

/-- C10.  For every state in which the captured selection text is empty,
triggering the submit action (handleVisualize) is a complete no-op: no
Generation Requester call is issued and the state is unchanged. -/
theorem c10_submit_noop_on_empty_selection (s : State)
    (hsel : s.selectedText = "") :
    handleVisualize s = (s, none) := by
  simp [handleVisualize, hsel]

/-- Witness for c10_submit_noop_on_empty_selection at the concrete in-flight
state with empty captured text. -/
theorem c10_witness :
    handleVisualize loadingEmptyState = (loadingEmptyState, none) :=
  c10_submit_noop_on_empty_selection loadingEmptyState (by decide)

/-- C9.  The header file dismiss action empties the Result History and
clears the file and its object URL, in every state, while leaving status,
error, selection text, anchor and drawer flag as they were. -/
theorem c9_file_dismiss_resets_history (s : State) :
    (stepFileDismiss s).results = [] ∧
    (stepFileDismiss s).file = none ∧
    (stepFileDismiss s).pdfUrl = none ∧
    (stepFileDismiss s).status = s.status ∧
    (stepFileDismiss s).error = s.error ∧
    (stepFileDismiss s).selectedText = s.selectedText ∧
    (stepFileDismiss s).selectionPosition = s.selectionPosition ∧
    (stepFileDismiss s).showHistory = s.showHistory := by
  simp [stepFileDismiss]

/-- C4.  A service failure received while a request is in flight sets
status to ERROR, makes the error message non-null, and leaves the Result
History exactly unchanged. -/
theorem c4_failure_sets_error_keeps_history (s : State)
    (_hst : s.status = GenerationStatus.LOADING) :
    (applyFailure s).status = GenerationStatus.ERROR ∧
    ((applyFailure s).error).isSome = true ∧
    (applyFailure s).results = s.results := by
  simp [applyFailure]

/-- Witness for c4_failure_sets_error_keeps_history at a concrete in-flight
state. -/
theorem c4_witness :
    (applyFailure loadingEmptyState).status = GenerationStatus.ERROR ∧
    ((applyFailure loadingEmptyState).error).isSome = true ∧
    (applyFailure loadingEmptyState).results = loadingEmptyState.results :=
  c4_failure_sets_error_keeps_history loadingEmptyState (by decide)

/-- C2 counterexample.  The claim says submitting clears the SelectionState
completely, text included.  At the concrete Selecting state the submission
precondition holds, yet after handleVisualize the captured text is still
present (only the anchor was reset): the code never calls
setSelectedText('') on this path. -/
theorem c2_counterexample :
    selectingState2.selectedText ≠ "" ∧
    (handleVisualize selectingState2).1.selectedText = "wave particle duality" ∧
    (handleVisualize selectingState2).1.selectedText ≠ "" := by
  refine ⟨by decide, rfl, by decide⟩

/-- C2 as amended.  Submitting with a non-empty captured selection sets
status to LOADING, resets the anchor to null (the captured text itself is
not cleared and keeps its value), clears the error message, invokes the
Generation Requester with the captured text, and leaves the history
unchanged. -/
theorem c2_submit_transition (s : State) (hsel : s.selectedText ≠ "") :
    (handleVisualize s).1.status = GenerationStatus.LOADING ∧
    (handleVisualize s).1.selectionPosition = none ∧
    (handleVisualize s).1.error = none ∧
    (handleVisualize s).1.selectedText = s.selectedText ∧
    (handleVisualize s).2 = some s.selectedText ∧
    (handleVisualize s).1.results = s.results := by
  simp [handleVisualize, hsel]

/-- Witness for c2_submit_transition at the concrete Selecting state. -/
theorem c2_witness :
    (handleVisualize selectingState).1.status = GenerationStatus.LOADING ∧
    (handleVisualize selectingState).1.selectionPosition = none ∧
    (handleVisualize selectingState).1.error = none ∧
    (handleVisualize selectingState).1.selectedText = selectingState.selectedText ∧
    (handleVisualize selectingState).2 = some selectingState.selectedText ∧
    (handleVisualize selectingState).1.results = selectingState.results :=
  c2_submit_transition selectingState (by decide)

/-- C1 counterexample.  The claim says that in a Loading state triggering
submit issues no second Generation Requester invocation.  Submitting from
the concrete Selecting state reaches a Loading state (with the captured
text still set, since submit does not clear it), and triggering submit
again from that Loading state issues a second invocation: handleVisualize
guards only on empty text, never on status. -/
theorem c1_counterexample :
    (handleVisualize selectingState).1.status = GenerationStatus.LOADING ∧
    (handleVisualize (handleVisualize selectingState).1).2 = some "quantum" := by
  refine ⟨rfl, rfl⟩

/-- C1 as amended.  In a Loading state, triggering submit issues no
invocation and changes no state only when the captured selection text is
empty; the code guards solely on empty text, not on the Loading status. -/
theorem c1_no_resubmission_when_text_empty (s : State)
    (_hst : s.status = GenerationStatus.LOADING)
    (hsel : s.selectedText = "") :
    handleVisualize s = (s, none) := by
  simp [handleVisualize, hsel]

/-- Witness for c1_no_resubmission_when_text_empty at the concrete Loading
state with empty captured text. -/
theorem c1_witness :
    handleVisualize loadingEmptyState = (loadingEmptyState, none) :=
  c1_no_resubmission_when_text_empty loadingEmptyState (by decide) (by decide)

/-- C3.  Submitting a non-empty captured selection invokes the service with
exactly that text and moves to Loading; the success continuation then
builds one fresh VisualResult from the new id, the current timestamp, the
captured source text and the returned imageUrl and explanation, prepends it
as the new head of the history, growing it by exactly 1, and sets status to
SUCCESS. -/
theorem c3_success_prepends_fresh_result (s : State) (imageUrl : String)
    (explanation : Option String) (freshId : String) (now : Nat)
    (hsel : s.selectedText ≠ "") :
    (handleVisualize s).2 = some s.selectedText ∧
    (handleVisualize s).1.status = GenerationStatus.LOADING ∧
    (applySuccess (handleVisualize s).1 s.selectedText imageUrl explanation
        freshId now).results
      = ⟨freshId, s.selectedText, imageUrl, now, explanation⟩ :: s.results ∧
    (applySuccess (handleVisualize s).1 s.selectedText imageUrl explanation
        freshId now).results.length = s.results.length + 1 ∧
    (applySuccess (handleVisualize s).1 s.selectedText imageUrl explanation
        freshId now).status = GenerationStatus.SUCCESS := by
  simp [handleVisualize, applySuccess, hsel]

/-- Witness for c3_success_prepends_fresh_result at the concrete Selecting
state with a concrete service response. -/
theorem c3_witness :
    (handleVisualize selectingState).2 = some selectingState.selectedText ∧
    (handleVisualize selectingState).1.status = GenerationStatus.LOADING ∧
    (applySuccess (handleVisualize selectingState).1 selectingState.selectedText
        "http://x/img.png" (some "because") "id1" 1700).results
      = ⟨"id1", selectingState.selectedText, "http://x/img.png", 1700,
          some "because"⟩ :: selectingState.results ∧
    (applySuccess (handleVisualize selectingState).1 selectingState.selectedText
        "http://x/img.png" (some "because") "id1" 1700).results.length
      = selectingState.results.length + 1 ∧
    (applySuccess (handleVisualize selectingState).1 selectingState.selectedText
        "http://x/img.png" (some "because") "id1" 1700).status
      = GenerationStatus.SUCCESS :=
  c3_success_prepends_fresh_result selectingState "http://x/img.png"
    (some "because") "id1" 1700 (by decide)

/-- C5.  On every selection-change signal: if the trimmed text has length
at most 5 the tracker emits empty text and a null anchor; if it has length
greater than 5 it emits the trimmed text with a non-null anchor; in either
case the GenerationStatus is unchanged, in every state. -/
theorem c5_selection_tracker (s : State) (e : SelEvent) :
    ((jsTrim e.raw).length ≤ 5 →
        (handleMouseUp s (some e)).selectedText = "" ∧
        (handleMouseUp s (some e)).selectionPosition = none) ∧
    (5 < (jsTrim e.raw).length →
        (handleMouseUp s (some e)).selectedText = jsTrim e.raw ∧
        ((handleMouseUp s (some e)).selectionPosition).isSome = true) ∧
    (handleMouseUp s (some e)).status = s.status := by
  refine ⟨?_, ?_, ?_⟩
  · intro hle
    have hn : ¬ (jsTrim e.raw).length > 5 := by omega
    simp [handleMouseUp, hn]
  · intro hgt
    simp [handleMouseUp, hgt]
  · by_cases h : (jsTrim e.raw).length > 5 <;> simp [handleMouseUp, h]

/-- Witness for c5_selection_tracker: the 4-character selection " wave "
(too short once trimmed) is cleared at the initial state. -/
theorem c5_witness :
    (handleMouseUp initState (some ⟨" wave ", ⟨0, 2, 10⟩⟩)).selectedText = "" ∧
    (handleMouseUp initState (some ⟨" wave ", ⟨0, 2, 10⟩⟩)).selectionPosition = none :=
  (c5_selection_tracker initState ⟨" wave ", ⟨0, 2, 10⟩⟩).1 (by decide)

/-- Filtering out an id that occurs nowhere in a history leaves it
unchanged. -/
lemma filter_ne_of_not_mem (hist : List VisualResult) (id : String)
    (hid : id ∉ hist.map (fun r => r.id)) :
    hist.filter (fun r => r.id != id) = hist := by
  apply List.filter_eq_self.mpr
  intro r hr
  simp only [bne_iff_ne, ne_eq, decide_eq_true_eq]
  intro heq
  exact hid (heq ▸ List.mem_map_of_mem (fun r => r.id) hr)

/-- Decomposition of a duplicate-free history at an id it contains: the
history splits around the unique matching element, find? returns that
element, and filtering the id away keeps exactly the two surrounding parts
in order. -/
lemma decomp_of_mem_ids (hist : List VisualResult) (id : String)
    (hnd : (hist.map (fun r => r.id)).Nodup)
    (hmem : id ∈ hist.map (fun r => r.id)) :
    ∃ res l1 l2, hist = l1 ++ res :: l2 ∧ res.id = id ∧
      hist.find? (fun r => r.id == id) = some res ∧
      hist.filter (fun r => r.id != id) = l1 ++ l2 := by
  induction hist with
  | nil => simp at hmem
  | cons x t ih =>
    by_cases hx : x.id = id
    · have hnotin : id ∉ t.map (fun r => r.id) := by
        simp only [List.map_cons, List.nodup_cons] at hnd
        exact hx ▸ hnd.1
      refine ⟨x, [], t, by simp, hx, ?_, ?_⟩
      · exact List.find?_cons_of_pos _ (by simp [hx])
      · have hpx : (x.id != id) = false := by simp [hx]
        simp only [List.filter_cons, hpx, if_neg Bool.false_ne_true]
        simpa using filter_ne_of_not_mem t id hnotin
    · have hmem' : id ∈ t.map (fun r => r.id) := by
        simp only [List.map_cons, List.mem_cons] at hmem
        exact hmem.resolve_left (fun h => hx h.symm)
      have hnd' : (t.map (fun r => r.id)).Nodup := by
        simp only [List.map_cons, List.nodup_cons] at hnd
        exact hnd.2
      obtain ⟨res, l1, l2, ht, hresid, hfind, hfilter⟩ := ih hnd' hmem'
      refine ⟨res, x :: l1, l2, by rw [ht]; simp, hresid, ?_, ?_⟩
      · rw [List.find?_cons_of_neg _ (by simp [hx]), hfind]
      · have hpx : (x.id != id) = true := by simp [hx]
        simp only [List.filter_cons, hpx, if_pos rfl, hfilter]
        simp

/-- C6.  On a duplicate-free history, promote(id) with id present moves the
unique matching element, fields untouched, to the head, keeps the length
and the relative order of all other elements; promoting the current head
leaves the history as it was, an absent id changes nothing at all, and the
GenerationStatus is never changed. -/
theorem c6_promote_spec (s : State) (id : String)
    (hnd : (s.results.map (fun r => r.id)).Nodup) :
    (id ∈ s.results.map (fun r => r.id) →
       ∃ res l1 l2, s.results = l1 ++ res :: l2 ∧ res.id = id ∧
         (stepPromote s id).results = res :: (l1 ++ l2) ∧
         (stepPromote s id).results.length = s.results.length) ∧
    (∀ r t, s.results = r :: t → r.id = id →
       (stepPromote s id).results = s.results) ∧
    (id ∉ s.results.map (fun r => r.id) → stepPromote s id = s) ∧
    (stepPromote s id).status = s.status := by
  refine ⟨?_, ?_, ?_, ?_⟩
  · intro hmem
    obtain ⟨res, l1, l2, ht, hresid, hfind, hfilter⟩ :=
      decomp_of_mem_ids s.results id hnd hmem
    have hpr : promote id s.results = res :: (l1 ++ l2) := by
      unfold promote
      rw [hfind, hfilter]
    have hsp : (stepPromote s id).results = res :: (l1 ++ l2) := by
      unfold stepPromote
      rw [hfind]
      exact hpr
    refine ⟨res, l1, l2, ht, hresid, hsp, ?_⟩
    rw [hsp, ht]
    simp only [List.length_cons, List.length_append]
    omega
  · intro r t hrt hrid
    have hnotin : id ∉ t.map (fun x => x.id) := by
      rw [hrt] at hnd
      simp only [List.map_cons, List.nodup_cons] at hnd
      exact hrid ▸ hnd.1
    have hfind : s.results.find? (fun x => x.id == id) = some r := by
      rw [hrt]
      exact List.find?_cons_of_pos _ (by simp [hrid])
    have hpr : promote id s.results = r :: t := by
      unfold promote
      rw [hfind, hrt]
      have hpx : (r.id != id) = false := by simp [hrid]
      simp only [List.filter_cons, hpx, if_neg Bool.false_ne_true]
      rw [filter_ne_of_not_mem t id hnotin]
    unfold stepPromote
    rw [hfind]
    rw [hpr, hrt]
  · intro hmem
    have hfind : s.results.find? (fun x => x.id == id) = none := by
      apply List.find?_eq_none.mpr
      intro r hr
      simp only [beq_iff_eq]
      intro hrid
      exact hmem (hrid ▸ List.mem_map_of_mem (fun x => x.id) hr)
    unfold stepPromote
    rw [hfind]
  · rcases hf : s.results.find? (fun x => x.id == id) with _ | res <;>
      · unfold stepPromote
        rw [hf]

/-- Witness for c6_promote_spec on a concrete duplicate-free two-element
history, promoting the non-head entry with id b. -/
theorem c6_witness :
    (∃ res l1 l2, twoResultState.results = l1 ++ res :: l2 ∧ res.id = "b" ∧
       (stepPromote twoResultState "b").results = res :: (l1 ++ l2) ∧
       (stepPromote twoResultState "b").results.length
         = twoResultState.results.length) ∧
    (stepPromote twoResultState "b").status = twoResultState.status := by
  have h := c6_promote_spec twoResultState "b" (by decide)
  exact ⟨h.1 (by decide), h.2.2.2⟩

/-- C7.  Dismissing the current head of a non-empty duplicate-free history
removes exactly that entry: the remainder is the old tail in its original
order, the dismissed id no longer occurs, and the GenerationStatus is
untouched. -/
theorem c7_dismiss_head (s : State) (r : VisualResult) (t : List VisualResult)
    (hres : s.results = r :: t)
    (hnd : (s.results.map (fun x => x.id)).Nodup) :
    (stepDismissHead s).results = t ∧
    r.id ∉ (stepDismissHead s).results.map (fun x => x.id) ∧
    (stepDismissHead s).status = s.status := by
  have hnotin : r.id ∉ t.map (fun x => x.id) := by
    rw [hres] at hnd
    simp only [List.map_cons, List.nodup_cons] at hnd
    exact hnd.1
  have hsd : stepDismissHead s
      = { s with results := (r :: t).filter (fun x => x.id != r.id) } := by
    unfold stepDismissHead
    rw [hres]
  have hfilt : (r :: t).filter (fun x => x.id != r.id) = t := by
    have hpr : (r.id != r.id) = false := by simp
    simp only [List.filter_cons, hpr, if_neg Bool.false_ne_true]
    exact filter_ne_of_not_mem t r.id hnotin
  refine ⟨?_, ?_, ?_⟩
  · rw [hsd]
    simpa using hfilt
  · rw [hsd]
    simpa [hfilt] using hnotin
  · rw [hsd]

/-- Witness for c7_dismiss_head on the concrete two-element history. -/
theorem c7_witness :
    (stepDismissHead twoResultState).results = [resB] ∧
    resA.id ∉ (stepDismissHead twoResultState).results.map (fun x => x.id) ∧
    (stepDismissHead twoResultState).status = twoResultState.status :=
  c7_dismiss_head twoResultState resA [resB] (by decide) (by decide)

/-- handleMouseUp never touches the result history. -/
lemma results_handleMouseUp (s : State) (ev : Option SelEvent) :
    (handleMouseUp s ev).results = s.results := by
  cases ev with
  | none => rfl
  | some e =>
    by_cases h : (jsTrim e.raw).length > 5 <;> simp [handleMouseUp, h]

/-- The synchronous part of handleVisualize never touches the result
history. -/
lemma results_handleVisualize (s : State) :
    ((handleVisualize s).1).results = s.results := by
  by_cases h : s.selectedText = "" <;> simp [handleVisualize, h]

/-- handleFileChange never touches the result history. -/
lemma results_handleFileChange (s : State) (f : Option FileInput) :
    (handleFileChange s f).results = s.results := by
  cases f with
  | none => rfl
  | some fi =>
    by_cases h : fi.ftype = "application/pdf" <;> simp [handleFileChange, h]

/-- Promoting preserves duplicate-freedom of the ids. -/
lemma nodup_promote (hist : List VisualResult) (id : String)
    (hnd : (hist.map (fun r => r.id)).Nodup) :
    ((promote id hist).map (fun r => r.id)).Nodup := by
  rcases hf : hist.find? (fun r => r.id == id) with _ | res
  · have : promote id hist = hist := by
      unfold promote
      rw [hf]
    rw [this]
    exact hnd
  · have hresid : res.id = id := by
      have h1 := List.find?_some hf
      simpa using h1
    have hpr : promote id hist = res :: hist.filter (fun r => r.id != id) := by
      unfold promote
      rw [hf]
    have hsub : ((hist.filter (fun r => r.id != id)).map (fun r => r.id)).Sublist
        (hist.map (fun r => r.id)) :=
      (List.filter_sublist hist).map (fun r => r.id)
    have hnd1 : ((hist.filter (fun r => r.id != id)).map (fun r => r.id)).Nodup :=
      hsub.nodup hnd
    have hnotin : res.id ∉ (hist.filter (fun r => r.id != id)).map (fun r => r.id) := by
      intro hmem
      rcases List.mem_map.mp hmem with ⟨r, hr, hrid⟩
      have hpred := (List.mem_filter.mp hr).2
      rw [bne_iff_ne] at hpred
      exact hpred (hrid.trans hresid)
    rw [hpr]
    simp only [List.map_cons, List.nodup_cons]
    exact ⟨hnotin, hnd1⟩

/-- Filtering preserves duplicate-freedom of the ids. -/
lemma nodup_filter_ids (hist : List VisualResult) (p : VisualResult → Bool)
    (hnd : (hist.map (fun r => r.id)).Nodup) :
    ((hist.filter p).map (fun r => r.id)).Nodup :=
  (((List.filter_sublist hist).map (fun r => r.id)).nodup) hnd

/-- One event preserves the no-duplicate-id invariant, provided a success
event carries a fresh id. -/
lemma step_nodup (s : State) (e : Event)
    (hnd : (s.results.map (fun r => r.id)).Nodup)
    (hok : freshOk s e = true) :
    (((step s e).results).map (fun r => r.id)).Nodup := by
  cases e with
  | mouseUp ev =>
    simpa [step, results_handleMouseUp] using hnd
  | submit =>
    simpa [step, results_handleVisualize] using hnd
  | success c u ex fid now =>
    have hfresh : fid ∉ s.results.map (fun r => r.id) := by
      simp only [freshOk, Bool.not_eq_eq_eq_not, Bool.not_true, List.any_eq_false,
        beq_iff_eq] at hok
      intro hmem
      rcases List.mem_map.mp hmem with ⟨r, hr, hrid⟩
      exact hok r hr hrid
    simp only [step, applySuccess, List.map_cons, List.nodup_cons]
    exact ⟨hfresh, hnd⟩
  | failure =>
    simpa [step, applyFailure] using hnd
  | promoteEntry id =>
    rcases hf : s.results.find? (fun r => r.id == id) with _ | res
    · have : step s (Event.promoteEntry id) = s := by
        simp only [step]
        unfold stepPromote
        rw [hf]
      rw [this]
      exact hnd
    · have : (step s (Event.promoteEntry id)).results = promote id s.results := by
        simp only [step]
        unfold stepPromote
        rw [hf]
      rw [this]
      exact nodup_promote s.results id hnd
  | dismissHead =>
    rcases hres : s.results with _ | ⟨r, t⟩
    · have : step s Event.dismissHead = s := by
        simp only [step]
        unfold stepDismissHead
        rw [hres]
      rw [this]
      exact hnd
    · have heq : (step s Event.dismissHead).results
          = s.results.filter (fun x => x.id != r.id) := by
        simp only [step]
        unfold stepDismissHead
        rw [hres]
      rw [heq]
      exact nodup_filter_ids s.results _ hnd
  | fileDismiss =>
    simp [step, stepFileDismiss]
  | errorDismiss =>
    simpa [step] using hnd
  | toggleHistory =>
    simpa [step] using hnd
  | fileChange f =>
    simpa [step, results_handleFileChange] using hnd

/-- A whole run of events preserves the no-duplicate-id invariant, provided
every success event along the run carries a fresh id. -/
lemma run_nodup (evs : List Event) :
    ∀ s : State, (s.results.map (fun r => r.id)).Nodup →
      freshTrace s evs = true →
      (((run s evs).results).map (fun r => r.id)).Nodup := by
  induction evs with
  | nil =>
    intro s h _
    simpa [run] using h
  | cons e rest ih =>
    intro s h hT
    simp only [freshTrace, Bool.and_eq_true] at hT
    have hstep := step_nodup s e h hT.1
    have hrun : run s (e :: rest) = run (step s e) rest := by
      simp [run]
    rw [hrun]
    exact ih (step s e) hstep hT.2

/-- C8.  Every state reachable from the initial state by a run whose
success events carry session-unique (fresh) ids has a duplicate-free
Result History; in particular inserting a fresh result preserves the
no-duplicate-id invariant. -/
theorem c8_no_duplicate_ids :
    (∀ evs : List Event, freshTrace initState evs = true →
       (((run initState evs).results).map (fun r => r.id)).Nodup) ∧
    (∀ (s : State) (captured imageUrl : String) (explanation : Option String)
        (freshId : String) (now : Nat),
       (s.results.map (fun r => r.id)).Nodup →
       freshId ∉ s.results.map (fun r => r.id) →
       (((applySuccess s captured imageUrl explanation freshId now).results).map
          (fun r => r.id)).Nodup) := by
  constructor
  · intro evs hT
    exact run_nodup evs initState (by simp [initState]) hT
  · intro s captured imageUrl explanation freshId now hnd hfresh
    simp only [applySuccess, List.map_cons, List.nodup_cons]
    exact ⟨hfresh, hnd⟩

/-- Witness for c8_no_duplicate_ids: a concrete run that selects a passage,
submits it and receives a successful response with a fresh id, and a
concrete fresh insertion into the two-element history. -/
theorem c8_witness :
    (((run initState
        [Event.mouseUp (some ⟨"quantum entanglement is weird", ⟨0, 2, 10⟩⟩),
         Event.submit,
         Event.success "quantum entanglement is weird" "http://x/img.png"
           none "id1" 99]).results).map (fun r => r.id)).Nodup ∧
    (((applySuccess twoResultState "gamma text" "http://x/c.png" none "c"
        7).results).map (fun r => r.id)).Nodup :=
  ⟨c8_no_duplicate_ids.1 _ (by decide),
   c8_no_duplicate_ids.2 twoResultState "gamma text" "http://x/c.png" none "c" 7
     (by decide) (by decide)⟩

end VisualiEducate
